import Mathlib

/-!
Shallow embedding of the OECD SDMX-JSON reshaping code
(src/oecd_import.py and src/stats_oecd.py) and proofs about it.

Conventions of the embedding:
* Python strings are Lean `String`; the colon split of a series key is
  modelled character by character (`splitTokens`) with the exact semantics
  of Python's `str.split(":")`.
* A pandas DataFrame is modelled as a list of rows, each row an ordered
  association list from column name to cell.  A pandas cell is a string,
  a number, or the missing sentinel (NaN / None, which pandas treats as
  missing).
* A Python dict is an ordered association list built by `pyDict`:
  insertion order is kept, a repeated key keeps its first position but
  takes the last value, exactly like CPython dicts.
* Fallible Python code (KeyError, IndexError, ValueError, NameError)
  is modelled in the `Except PdError` monad.
-/

/-- Errors raised by the Python code paths that the embedding models. -/
inductive PdError where
  | keyError : String → PdError
  | indexError : PdError
  | valueError : PdError
  | nameError : String → PdError
deriving DecidableEq, Repr

/-- One pandas cell: a string, a numeric value, or missing (NaN / None). -/
inductive Cell where
  | str : String → Cell
  | num : ℚ → Cell
  | missing : Cell
deriving DecidableEq, Repr

/-- One DataFrame row: ordered association list column-name → cell. -/
abbrev Row := List (String × Cell)

/-- First-match association-list lookup (pandas column access on a row). -/
def rowLookup (k : String) : Row → Option Cell
  | [] => none
  | p :: rest => if p.1 = k then some p.2 else rowLookup k rest

/-- Association-list lookup for arbitrary value types. -/
def lookupA {α : Type} (k : String) : List (String × α) → Option α
  | [] => none
  | p :: rest => if p.1 = k then some p.2 else lookupA k rest

/-- CPython dict insertion: a repeated key keeps its original position but
takes the new value; a fresh key is appended. -/
def pyDictInsert {α : Type} (d : List (String × α)) (k : String) (v : α) :
    List (String × α) :=
  if d.any (fun p => p.1 = k) then
    d.map (fun p => if p.1 = k then (k, v) else p)
  else
    d ++ [(k, v)]

/-- CPython dict built from a list of key/value pairs (`dict(zip(...))`). -/
def pyDict {α : Type} (pairs : List (String × α)) : List (String × α) :=
  pairs.foldl (fun d p => pyDictInsert d p.1 p.2) []

/-- Character-level model of Python's `str.split(":")`:
`"" ↦ [""]`, `"a:" ↦ ["a", ""]`, `"0:0" ↦ ["0", "0"]`. -/
def splitTokens : List Char → List (List Char)
  | [] => [[]]
  | c :: rest =>
    match splitTokens rest with
    | [] => [[]]
    | t :: ts => if c = ':' then [] :: t :: ts else (c :: t) :: ts

/-- Model of `":".join(...)`, the inverse direction of `splitTokens`. -/
def joinTokens : List (List Char) → List Char
  | [] => []
  | [t] => t
  | t :: t2 :: ts => t ++ ':' :: joinTokens (t2 :: ts)

/-- `key.split(":")` on Lean strings. -/
def splitKey (key : String) : List String :=
  (splitTokens key.data).map (fun t => ⟨t⟩)

/-- Joining raw codes back with `":"` (the re-encoding direction). -/
def joinKey (tokens : List String) : String :=
  ⟨joinTokens (tokens.map String.data)⟩


/-- Keys of an association list. -/
def keysA {α : Type} (l : List (String × α)) : List String := l.map (·.1)


/-! ## Data model: structure metadata and payload shapes -/

/-- One entry of a dimension's or attribute's code table
(an element of `dim['values']`: `{id, name}`). -/
structure CodeEntry where
  id : String
  name : String
deriving DecidableEq, Repr

/-- One dimension or attribute definition from the structure block
(`{id, role, values}`; `role` is only read for the time dimension). -/
structure DimSpec where
  id : String
  role : String := ""
  values : List CodeEntry
deriving DecidableEq, Repr

/-- pandas cell of a numeric-or-null JSON entry (null becomes missing). -/
def cellOfOpt : Option ℚ → Cell
  | none => Cell.missing
  | some q => Cell.num q

/-- Python `str.lower()` on the ASCII dimension/attribute ids this data
uses, defined character by character so that it evaluates by `decide`
(`String.toLower` itself is defined by well-founded recursion on byte
positions, which the kernel does not unfold). -/
def pyLower (s : String) : String :=
  ⟨s.data.map Char.toLower⟩

/-- Python `str()` of an attribute-array entry: `None` prints as `"None"`. -/
def pyStrAttr : Option Int → String
  | none => "None"
  | some n => toString n

/-- `xs[0]` on a Python list: IndexError when empty. -/
def headE {α : Type} : List α → Except PdError α
  | [] => Except.error PdError.indexError
  | x :: _ => Except.ok x

/-- `data['location'].iloc[0]`: the raw `location` code of a decoded
one-row series frame; KeyError when the frame has no such column
(src/oecd_import.py line 42, src/stats_oecd.py line 275). -/
def locOf (decoded : List (String × String)) : Except PdError String :=
  match lookupA "location" decoded with
  | some v => Except.ok v
  | none => Except.error (PdError.keyError "location")

/-- Does a left row's join-key cell match the key cell `rv` of the other
side (pandas join semantics: a missing key (NaN) matches nothing). -/
def keyMatches (key : String) (rv : Option Cell) (lr : Row) : Bool :=
  match rv, rowLookup key lr with
  | some c, some c2 => !(c == Cell.missing) && c == c2
  | _, _ => false

/-- `pd.merge(left=leftRows, right=[rightRow], on=key, how='outer')` for the
one-row right frames this code produces.  Matched left rows gain the right
frame's non-key columns; unmatched left rows gain them as NaN; if no left
row matches, the right row is appended, its key value in the key column,
the other left columns filled by NaN, and the right frame's non-key
columns kept with their values.  (pandas sorts outer joins by key; every
call site here joins rows sharing a single key value, where that sort is
the identity.) -/
def mergeOuterOneRight (leftCols : List String) (key : String)
    (leftRows : List Row) (rightRow : Row) : List Row :=
  let rv := rowLookup key rightRow
  let rightRest := rightRow.filter (fun p => p.1 != key)
  let missFill := rightRest.map (fun p => (p.1, Cell.missing))
  let joined := leftRows.map (fun lr =>
    if keyMatches key rv lr then lr ++ rightRest else lr ++ missFill)
  if leftRows.any (fun lr => keyMatches key rv lr) then joined
  else
    joined ++ [leftCols.map (fun c =>
      if c = key then (c, rv.getD Cell.missing) else (c, Cell.missing)) ++
      rightRest]

/-- `pd.merge(left=leftRows, right=rightRows, how='left', on=key)`: every
left row gains, in left order, the non-key right columns of each right row
whose key cell equals its own non-missing key cell; an unmatched left row
gains those columns as NaN.  (pandas raises if the key column is absent
from a non-empty left frame; the frames merged below always carry the key
columns being joined, and a left row without the key simply matches
nothing here.) -/
def mergeLeftOn (key : String) (leftRows rightRows : List Row) : List Row :=
  let rightCols := (rightRows.head?.getD []).map (·.1)
  let missFill := (rightCols.filter (fun c => c != key)).map
    (fun c => (c, Cell.missing))
  (leftRows.map (fun lr =>
    match rightRows.filter (fun rr => keyMatches key (rowLookup key rr) lr) with
    | [] => [lr ++ missFill]
    | m :: ms => (m :: ms).map (fun rr => lr ++ rr.filter (fun p => p.1 != key)))).flatten

/-- Rows of the per-dimension code-table frame built at
src/oecd_import.py lines 67-70 and src/stats_oecd.py lines 306-315:
columns `<id>_code`, `<id>_name` from `dim['values']`, plus the join-key
column `<id>` holding the stringified positional index. -/
def metaFrameRows (dimId : String) (values : List CodeEntry) : List Row :=
  values.enum.map (fun p =>
    [(dimId ++ "_code", Cell.str p.2.id), (dimId ++ "_name", Cell.str p.2.name),
     (dimId, Cell.str (toString p.1))])

/-- Rows of the time frame built at src/oecd_import.py lines 74-78 and
src/stats_oecd.py lines 319-323: the values frame's two columns are renamed
`['year', role]` and the role column is then overwritten by the index, so
`year` holds each value's raw id and the join key is the index. -/
def timeFrameRows (roleId : String) (values : List CodeEntry) : List Row :=
  values.enum.map (fun p =>
    [("year", Cell.str p.2.id), (roleId, Cell.str (toString p.1))])

/-! ## Embedding of src/oecd_import.py -/

namespace OecdImport

/-- `value` of one `dataSets[0].series` entry as read by oecd_import.py
(only its `observations` dict is used). -/
structure SeriesBody where
  observations : List (String × List (Option ℚ))
deriving DecidableEq, Repr

/-- src/oecd_import.py lines 25-27: `col_names.append(dim['id'].lower())`. -/
def colNamesOf (dims : List DimSpec) : List String :=
  dims.map (fun d => pyLower d.id)

/-- src/oecd_import.py line 33:
`data = pd.DataFrame(dict(zip(col_names, [[x] for x in key.split(":")])))` -
the decoded one-row frame, as its underlying dict from column name to raw
code (`zip` pairs names with tokens up to the shorter of the two lists). -/
def decodeSeriesKey (colNames : List String) (key : String) :
    List (String × String) :=
  pyDict (List.zip colNames (splitKey key))

/-- The single row of the decoded frame (each column holds one string). -/
def dataRowOf (decoded : List (String × String)) : Row :=
  decoded.map (fun p => (p.1, Cell.str p.2))

/-- src/oecd_import.py lines 35-38:
`for time, measure in observations.items(): observations[time] = measure[0]`
(IndexError on an empty value array, in dict order). -/
def extractObs : List (String × List (Option ℚ)) →
    Except PdError (List (String × Option ℚ))
  | [] => Except.ok []
  | (t, arr) :: rest => do
    let v ← headE arr
    let more ← extractObs rest
    Except.ok ((t, v) :: more)

/-- src/oecd_import.py lines 31-47: expand one series entry into its rows.
Order of effects follows the source: the decoded frame is built (line 33),
the observation arrays are unpacked (lines 35-40), then
`data['location'].iloc[0]` is read (line 42, KeyError when the decoded
frame has no `location` column), and finally the outer merge on
`location` (lines 44-47). -/
def expandSeries (colNames : List String) (key : String)
    (body : SeriesBody) : Except PdError (List Row) := do
  let decoded := decodeSeriesKey colNames key
  let obs ← extractObs body.observations
  let loc ← locOf decoded
  let obsRows := obs.map (fun p =>
    [("time_period", Cell.str p.1), ("observation", cellOfOpt p.2),
     ("location", Cell.str loc)])
  Except.ok (mergeOuterOneRight ["time_period", "observation", "location"]
    "location" obsRows (dataRowOf decoded))

/-- src/oecd_import.py lines 29-51: the dataframe accumulation loop over
`dataSets[0]['series'].items()`. -/
def fetch_oecd_data (colNames : List String) :
    List (String × SeriesBody) → Except PdError (List Row)
  | [] => Except.ok []
  | (key, body) :: rest => do
    let rows ← expandSeries colNames key body
    let more ← fetch_oecd_data colNames rest
    Except.ok (rows ++ more)

/-- src/oecd_import.py lines 66-71: one code-table frame per series
dimension; the `.columns` assignment raises ValueError when `dim['values']`
is empty (this file has no try/except around it). -/
def importMetaFrame (d : DimSpec) : Except PdError (String × List Row) :=
  if d.values.isEmpty then Except.error PdError.valueError
  else Except.ok (pyLower d.id, metaFrameRows (pyLower d.id) d.values)

def buildImportMeta : List DimSpec → Except PdError (List (String × List Row))
  | [] => Except.ok []
  | d :: rest => do
    let f ← importMetaFrame d
    let more ← buildImportMeta rest
    Except.ok (f :: more)

/-- src/oecd_import.py lines 53-87: `append_metadata_to_oecd_stats`.
`metaSeries` is `metadata_stats_oecd_idd['series']` and `obsDims` is
`metadata_stats_oecd_idd['observation']` (line 74 reads its element 0). -/
def append_metadata_to_oecd_stats (idd : List Row)
    (metaSeries obsDims : List DimSpec) : Except PdError (List Row) := do
  let entries ← buildImportMeta metaSeries
  let dict := pyDict entries
  let timeSpec ← headE obsDims
  let tf ← if timeSpec.values.isEmpty then Except.error PdError.valueError
    else Except.ok (timeFrameRows (pyLower timeSpec.role) timeSpec.values)
  let dict2 := pyDictInsert dict (pyLower timeSpec.role) tf
  Except.ok (dict2.foldl (fun acc p => mergeLeftOn p.1 acc p.2) idd)

end OecdImport

/-! ## Embedding of src/stats_oecd.py -/

namespace StatsOecd

/-- One `dataSets[0].series` entry as read by stats_oecd.py: an
`attributes` array of ints-or-null and an `observations` dict from period
key to value array `[value, statuses...]`. -/
structure SeriesBody where
  attributes : List (Option Int)
  observations : List (String × List (Option ℚ))
deriving DecidableEq, Repr

/-- `dataSets[0]` as read by stats_oecd.py: a flat `observations` dict and
a series-keyed `series` dict. -/
structure RawDataset where
  observations : List (String × List (Option ℚ))
  series : List (String × SeriesBody)
deriving DecidableEq, Repr

/-- The `structure` block of a response, with the four collections the
code reads; a `none` models a missing JSON key. -/
structure RawStructure where
  dimensions_series : Option (List DimSpec)
  dimensions_observation : Option (List DimSpec)
  attributes_series : Option (List DimSpec)
  attributes_observation : Option (List DimSpec)
deriving DecidableEq, Repr

/-- A `['series']`-style mapping access: KeyError when the key is absent. -/
def getKey {α : Type} (o : Option α) (k : String) : Except PdError α :=
  match o with
  | some v => Except.ok v
  | none => Except.error (PdError.keyError k)

/-- Python dict lookup `d[k]`: KeyError when absent. -/
def pyLookup {α : Type} (d : List (String × α)) (k : String) :
    Except PdError α :=
  match lookupA k d with
  | some v => Except.ok v
  | none => Except.error (PdError.keyError k)

/-- The four spec collections after parsing the structure block. -/
structure ParsedStructure where
  seriesDims : List DimSpec
  seriesAttrs : List DimSpec
  obsDims : List DimSpec
  obsAttrs : List DimSpec
deriving DecidableEq, Repr

/-- The structure-parsing accesses of src/stats_oecd.py in source order:
line 139 reads `structure.dimensions.observation`, line 146
`structure.attributes.observation`, line 177 `structure.dimensions.series`,
line 178 `structure.attributes.series`; a missing key raises KeyError. -/
def parseStructure (raw : RawStructure) : Except PdError ParsedStructure := do
  let obsDims ← getKey raw.dimensions_observation "observation"
  let obsAttrs ← getKey raw.attributes_observation "observation"
  let serDims ← getKey raw.dimensions_series "series"
  let serAttrs ← getKey raw.attributes_series "series"
  Except.ok ⟨serDims, serAttrs, obsDims, obsAttrs⟩

/-- lines 181-193: series dimension names then series attribute names
(each `id.lower()`), the columns of the decoded series frame. -/
def seriesDataColumnNames (serDims serAttrs : List DimSpec) : List String :=
  serDims.map (fun d => pyLower d.id) ++ serAttrs.map (fun d => pyLower d.id)

/-- lines 195-214: `observation`, then observation-level attribute names,
then observation-level dimension names. -/
def observationDataColumnNames (obsDims obsAttrs : List DimSpec) :
    List String :=
  "observation" ::
    (obsAttrs.map (fun d => pyLower d.id) ++ obsDims.map (fun d => pyLower d.id))

/-- lines 260-270: the one-row frame for one (period, value-array) pair:
`dict(zip(observation_data_column_names,
 [observation[0:1]] + [[s] for s in observation[1:]] + [time_period]))`.
An empty value array yields a zero-row frame (its `observation` column is
the empty slice `observation[0:1]` and the scalar period broadcasts over
zero rows). -/
def obsPeriodRows (obsCols : List String) (t : String)
    (arr : List (Option ℚ)) : List Row :=
  match arr with
  | [] => []
  | v :: statuses =>
    [pyDict (List.zip obsCols
      (cellOfOpt v :: (statuses.map cellOfOpt ++ [Cell.str t])))]

/-- lines 243-282, the body of the series loop: build the decoded one-row
series frame (lines 252-256: key tokens, then `str()`-rendered attribute
array entries, zipped against the series column names), build the
per-period observation rows (lines 258-271), `pd.concat` them (line 273,
ValueError when the observations dict is empty), set the `location` column
from `data['location'].iloc[0]` (line 275, KeyError when the decoded frame
has no `location` column), and outer-merge on `location` (lines 277-280). -/
def expandSeries (seriesCols obsCols : List String) (key : String)
    (body : SeriesBody) : Except PdError (List Row) := do
  let seriesVals := splitKey key ++ body.attributes.map pyStrAttr
  let decoded := pyDict (List.zip seriesCols seriesVals)
  let obsFrames := body.observations.map (fun p => obsPeriodRows obsCols p.1 p.2)
  let _ ← if body.observations.isEmpty then Except.error PdError.valueError
    else Except.ok ()
  let allObs := obsFrames.flatten
  let loc ← locOf decoded
  let obsRows := allObs.map (fun r => pyDictInsert r "location" (Cell.str loc))
  let leftCols := match obsRows.head? with
    | some r => r.map (·.1)
    | none => obsCols ++ ["location"]
  Except.ok (mergeOuterOneRight leftCols "location" obsRows
    (decoded.map (fun p => (p.1, Cell.str p.2))))

/-- lines 241-282: the accumulation loop over the series items. -/
def seriesPhase (seriesCols obsCols : List String) :
    List (String × SeriesBody) → Except PdError (List Row)
  | [] => Except.ok []
  | (key, body) :: rest => do
    let rows ← expandSeries seriesCols obsCols key body
    let more ← seriesPhase seriesCols obsCols rest
    Except.ok (rows ++ more)

/-- Decimal digits to a natural number. -/
def digitsToNat (ds : List Char) : Nat :=
  ds.foldl (fun n c => 10 * n + (c.toNat - ('0').toNat)) 0

/-- Python `int(token)` as used on key tokens (line 155): a plain decimal
numeral, optionally negative, parses and is normalized (`int("00") = 0`);
anything else raises ValueError.  (CPython also strips whitespace and
accepts a leading plus; those token shapes never occur in these keys and
no theorem depends on them.) -/
def pyInt (s : String) : Except PdError Int :=
  match s.data with
  | [] => Except.error PdError.valueError
  | '-' :: ds =>
    if ds ≠ [] ∧ ds.all Char.isDigit then Except.ok (-(Int.ofNat (digitsToNat ds)))
    else Except.error PdError.valueError
  | ds =>
    if ds.all Char.isDigit then Except.ok (Int.ofNat (digitsToNat ds))
    else Except.error PdError.valueError

/-- line 155: `[int(dimension) for dimension in dimensions.split(':')]` -
the flattened-path decode of one observation key. -/
def flatDecodeKey (key : String) : Except PdError (List Int) :=
  (splitKey key).mapM pyInt

/-- Re-encoding a flattened decode: join the decoded codes with `:`. -/
def flatReencode (ints : List Int) : String :=
  joinKey (ints.map toString)

def flatRaws : List (String × List (Option ℚ)) →
    Except PdError (List (List Int × List (Option ℚ)))
  | [] => Except.ok []
  | (key, arr) :: rest => do
    let ints ← flatDecodeKey key
    let more ← flatRaws rest
    Except.ok ((ints, arr) :: more)

/-- lines 151-158: decode each flattened test key and assemble the frame;
`pd.DataFrame(output, columns=column_names)` (line 158) raises ValueError
when a row's length differs from the number of column names.  The column
renames of the label loop that follows are modelled by `flatMetaRename`
below, in source order. -/
def flatPhase (colNames : List String)
    (testData : List (String × List (Option ℚ))) :
    Except PdError (List Row) := do
  let raws ← flatRaws testData
  if raws.all (fun r => r.1.length + r.2.length = colNames.length) then
    Except.ok (raws.map (fun r =>
      List.zip colNames (r.1.map (fun n => Cell.num (n : ℚ)) ++ r.2.map cellOfOpt)))
  else Except.error PdError.valueError

/-- lines 139-149 and 162-169: the name-keyed dims-and-attributes dict of
code-table frames (`dimensions_and_attributes[name] = pd.DataFrame(values)`,
a duplicate lowered name overwriting the earlier frame), whose per-entry
column rename `value_map.columns = [name_code, name_name]` at line 163
raises ValueError on an empty frame - the first empty entry in dict order
raises.  Once the renames succeed, the label merges (lines 164-169) join
each frame on the right index against its own column of the flat output,
cannot raise for pairwise-distinct lowered names, and only feed the
`print` at line 170, so they are not modelled further. -/
def flatMetaRename (obsDims obsAttrs : List DimSpec) : Except PdError Unit :=
  if (pyDict ((obsDims ++ obsAttrs).map
      (fun d => (pyLower d.id, d.values)))).any (fun p => p.2.isEmpty)
  then Except.error PdError.valueError
  else Except.ok ()

/-- src/stats_oecd.py lines 116-288: `fetch_and_reshape_oecd_json` from the
point where the parsed JSON is in hand (the HTTP fetch of lines 82-84 is an
external collaborator).  Lines 132-134 and 236-237 look hard-coded test
keys up in the payload, so the function also demands those keys; an
observation-level dimension or attribute with an empty code table makes
the rename at line 163 raise ValueError (`flatMetaRename`); and when
every prior step succeeds, the `return` statement (line 288) references
`oecd_json_structure_dimensions`, a name bound nowhere in the module, and
raises NameError. -/
def fetch_and_reshape_oecd_json (raw : RawStructure) (ds : RawDataset) :
    Except PdError (List Row) := do
  let t1 ← pyLookup ds.observations "0:10:6:9"
  let t2 ← pyLookup ds.observations "0:11:10:10"
  let t3 ← pyLookup ds.observations "0:1:9:40"
  let obsDims ← getKey raw.dimensions_observation "observation"
  let obsAttrs ← getKey raw.attributes_observation "observation"
  let flatCols := obsDims.map (fun d => pyLower d.id) ++
    "observation" :: obsAttrs.map (fun d => pyLower d.id)
  let _flat ← flatPhase flatCols
    [("0:10:6:9", t1), ("0:11:10:10", t2), ("0:1:9:40", t3)]
  let _ ← flatMetaRename obsDims obsAttrs
  let serDims ← getKey raw.dimensions_series "series"
  let serAttrs ← getKey raw.attributes_series "series"
  let s1 ← pyLookup ds.series "0:0:1"
  let s2 ← pyLookup ds.series "0:17:6"
  let s3 ← pyLookup ds.series "0:1:10"
  let _df ← seriesPhase (seriesDataColumnNames serDims serAttrs)
    (observationDataColumnNames obsDims obsAttrs)
    [("0:0:1", s1), ("0:17:6", s2), ("0:1:10", s3)]
  Except.error (PdError.nameError "oecd_json_structure_dimensions")

/-- src/stats_oecd.py lines 303-316: one id-keyed code-table frame. On an
empty values list the column rename raises ValueError, which lines 310-313
catch and ignore; the frame then has no rows and only its index column. -/
def statsMetaEntry (d : DimSpec) : String × List Row :=
  (pyLower d.id, metaFrameRows (pyLower d.id) d.values)

/-- src/stats_oecd.py lines 291-335: `append_metadata_to_oecd_stats`.
`metaSeries` is `metadata_stats_oecd_idd['series']`, `obsAttrMap` the
`observation_attribute_map` argument, `obsDims` is
`metadata_stats_oecd_idd['observation']` (line 319 reads element 0, whose
`role` names the time column).  Lines 303-316 build an id-keyed dict of
code-table frames — a duplicate id silently overwrites the earlier
frame — lines 318-325 add the time frame (its unprotected rename raises
ValueError on an empty values list), and lines 327-334 left-merge each
non-empty frame in dict order, skipping empty ones. -/
def append_metadata_to_oecd_stats (idd : List Row)
    (metaSeries obsAttrMap obsDims : List DimSpec) :
    Except PdError (List Row) := do
  let dict := pyDict ((metaSeries ++ obsAttrMap).map statsMetaEntry)
  let timeSpec ← headE obsDims
  let tf ← if timeSpec.values.isEmpty then Except.error PdError.valueError
    else Except.ok (timeFrameRows (pyLower timeSpec.role) timeSpec.values)
  let dict2 := pyDictInsert dict (pyLower timeSpec.role) tf
  Except.ok (dict2.foldl (fun acc p =>
    if p.2.isEmpty then acc else mergeLeftOn p.1 acc p.2) idd)

end StatsOecd

/-! ## Helper lemmas about the Except monad and the merge/expansion code -/

/-- Does an `Except` computation return normally? -/
def isOkE {ε α : Type} : Except ε α → Bool
  | Except.ok _ => true
  | Except.error _ => false



/-- Decidable equality of `Except` results, so that concrete runs of the
embedded code can be checked by `decide`. -/
instance exceptDecEq {ε α : Type} [DecidableEq ε] [DecidableEq α] :
    DecidableEq (Except ε α) := fun x y =>
  match x, y with
  | Except.ok a, Except.ok b =>
    if h : a = b then Decidable.isTrue (by rw [h])
    else Decidable.isFalse (by intro hc; cases hc; exact h rfl)
  | Except.error e, Except.error f =>
    if h : e = f then Decidable.isTrue (by rw [h])
    else Decidable.isFalse (by intro hc; cases hc; exact h rfl)
  | Except.ok a, Except.error f => Decidable.isFalse (by intro hc; cases hc)
  | Except.error e, Except.ok b => Decidable.isFalse (by intro hc; cases hc)

/-! ## General lemmas -/

theorem splitTokens_ne_nil : ∀ (l : List Char), splitTokens l ≠ []
  | [] => by simp [splitTokens]
  | c :: rest => by
    simp only [splitTokens]
    cases h : splitTokens rest with
    | nil => exact absurd h (splitTokens_ne_nil rest)
    | cons t ts => by_cases hc : c = ':' <;> simp [hc]

theorem joinTokens_splitTokens : ∀ (l : List Char), joinTokens (splitTokens l) = l
  | [] => rfl
  | c :: rest => by
    have ih := joinTokens_splitTokens rest
    cases h : splitTokens rest with
    | nil => exact absurd h (splitTokens_ne_nil rest)
    | cons t ts =>
      rw [h] at ih
      simp only [splitTokens, h]
      by_cases hc : c = ':'
      · subst hc
        rw [if_pos rfl]
        simp only [joinTokens, List.nil_append]
        rw [ih]
      · rw [if_neg hc]
        cases ts with
        | nil =>
          simp only [joinTokens] at ih ⊢
          rw [ih]
        | cons t2 ts2 =>
          simp only [joinTokens, List.cons_append] at ih ⊢
          rw [ih]

theorem map_data_map_mk (l : List (List Char)) :
    List.map String.data (List.map (fun t => (⟨t⟩ : String)) l) = l := by
  induction l with
  | nil => rfl
  | cons t ts ih =>
    simp only [List.map_cons]
    rw [ih]

theorem joinKey_splitKey (key : String) : joinKey (splitKey key) = key := by
  cases key with
  | mk d =>
    simp only [joinKey, splitKey]
    rw [map_data_map_mk, joinTokens_splitTokens]

theorem lookupA_eq_none_of_not_mem {α : Type} (k : String) :
    ∀ (l : List (String × α)), k ∉ keysA l → lookupA k l = none
  | [], _ => rfl
  | p :: rest, h => by
    have h1 : p.1 ≠ k := fun he => h (by simp [keysA, he])
    have h2 : k ∉ keysA rest := fun he => h (by
      simp only [keysA, List.map_cons, List.mem_cons]
      right
      exact he)
    simp only [lookupA, if_neg h1]
    exact lookupA_eq_none_of_not_mem k rest h2

theorem keysA_pyDictInsert_not_mem {α : Type} {k0 k : String}
    {d : List (String × α)} {v : α} (hne : k0 ≠ k) (hd : k0 ∉ keysA d) :
    k0 ∉ keysA (pyDictInsert d k v) := by
  unfold pyDictInsert
  by_cases h : d.any (fun p => p.1 = k)
  · rw [if_pos h]
    simp only [keysA, List.map_map, List.mem_map, Function.comp] at *
    rintro ⟨q, hq, hqx⟩
    by_cases hk : q.1 = k
    · rw [if_pos hk] at hqx
      exact hne hqx.symm
    · rw [if_neg hk] at hqx
      exact hd ⟨q, hq, hqx⟩
  · rw [if_neg h]
    simp only [keysA, List.map_append, List.mem_append, List.map_cons,
      List.map_nil, List.mem_singleton] at *
    rintro (h1 | h2)
    · exact hd h1
    · exact hne h2

theorem keysA_pyDictFold_not_mem {α : Type} {k0 : String} :
    ∀ (pairs acc : List (String × α)), k0 ∉ keysA acc → k0 ∉ keysA pairs →
      k0 ∉ keysA (pairs.foldl (fun d p => pyDictInsert d p.1 p.2) acc)
  | [], _, hacc, _ => hacc
  | p :: rest, acc, hacc, hp => by
    simp only [List.foldl_cons]
    have hne : k0 ≠ p.1 := fun he => hp (by simp [keysA, he])
    have h2 : k0 ∉ keysA rest := fun he => hp (by
      simp only [keysA, List.map_cons, List.mem_cons]
      right
      exact he)
    exact keysA_pyDictFold_not_mem rest _ (keysA_pyDictInsert_not_mem hne hacc) h2

theorem lookupA_pyDict_none {α : Type} (k : String) (pairs : List (String × α))
    (h : k ∉ keysA pairs) : lookupA k (pyDict pairs) = none :=
  lookupA_eq_none_of_not_mem k _
    (keysA_pyDictFold_not_mem pairs [] (by simp [keysA]) h)

/-- On pairs with pairwise-distinct keys, a CPython dict is just the list. -/
theorem pyDict_fold_nodup {α : Type} :
    ∀ (pairs acc : List (String × α)), (keysA (acc ++ pairs)).Nodup →
      pairs.foldl (fun d p => pyDictInsert d p.1 p.2) acc = acc ++ pairs
  | [], acc, _ => by simp
  | p :: rest, acc, h => by
    simp only [List.foldl_cons]
    have hdisj : (keysA acc).Disjoint (keysA (p :: rest)) := by
      have := (List.nodup_append.mp (by
        simpa [keysA, List.map_append] using h : ((keysA acc) ++ keysA (p :: rest)).Nodup))
      exact this.2.2
    have hnotin : ¬ acc.any (fun q => q.1 = p.1) := by
      simp only [List.any_eq_true, decide_eq_true_eq, not_exists, not_and]
      intro q hq hq1
      exact hdisj (List.mem_map.2 ⟨q, hq, rfl⟩) (by simp [keysA, hq1])
    have hins : pyDictInsert acc p.1 p.2 = acc ++ [p] := by
      unfold pyDictInsert
      rw [if_neg (by simpa using hnotin)]
    rw [hins, pyDict_fold_nodup rest (acc ++ [p]) (by
      simpa [keysA, List.map_append] using h)]
    simp

theorem pyDict_nodup {α : Type} (pairs : List (String × α))
    (h : (keysA pairs).Nodup) : pyDict pairs = pairs := by
  simpa [pyDict] using pyDict_fold_nodup pairs [] (by simpa [keysA] using h)

theorem okBind {ε α β : Type} (a : α) (f : α → Except ε β) :
    (Except.ok a >>= f) = f a := rfl

theorem errBind {ε α β : Type} (e : ε) (f : α → Except ε β) :
    (Except.error e >>= f : Except ε β) = Except.error e := rfl

theorem isOkE_bind_false {ε α β : Type} (e : Except ε α) (f : α → Except ε β)
    (hf : ∀ a, isOkE (f a) = false) : isOkE (e >>= f) = false := by
  cases e with
  | error _ => rfl
  | ok a => exact hf a

/-- The stats_oecd reshaping function never returns normally: every path
either raises along the way or reaches line 288 and raises NameError. -/
theorem statsReshape_never_ok (raw : StatsOecd.RawStructure)
    (ds : StatsOecd.RawDataset) :
    isOkE (StatsOecd.fetch_and_reshape_oecd_json raw ds) = false := by
  unfold StatsOecd.fetch_and_reshape_oecd_json
  repeat
    first
    | rfl
    | (apply isOkE_bind_false; intro _)


/-! ## Claim C6: concrete expander and merge scenario -/

/-- Claim C6 (confirmed): with dimensions `[location, measure]` whose code
tables are `location: {0:"AUS"}`, `measure: {0:"GDP"}`, series key `"0:0"`
and observations `{"2010": [100.5, null], "2011": [None, null]}`, the
oecd_import expander produces exactly the two claimed rows - `location "0"`,
`measure "0"`, `time_period "2010"`, `observation 100.5`, and the 2011 row
with an explicitly missing observation - and after the metadata merge the
first row carries `location_name = "Australia"`.  (The time spec merely
completes the metadata input, which the merger reads at `observation[0]`;
its `year` column matches no `time_period` here and stays missing.) -/
theorem c6_concrete_scenario :
    OecdImport.fetch_oecd_data
        (OecdImport.colNamesOf
          [{ id := "LOCATION", values := [⟨"AUS", "Australia"⟩] },
           { id := "MEASURE", values := [⟨"GDP", "GDP"⟩] }])
        [("0:0", ⟨[("2010", [some (mkRat 201 2), none]), ("2011", [none, none])]⟩)] =
      Except.ok
        [[("time_period", Cell.str "2010"), ("observation", Cell.num (mkRat 201 2)),
          ("location", Cell.str "0"), ("measure", Cell.str "0")],
         [("time_period", Cell.str "2011"), ("observation", Cell.missing),
          ("location", Cell.str "0"), ("measure", Cell.str "0")]] ∧
    OecdImport.append_metadata_to_oecd_stats
        [[("time_period", Cell.str "2010"), ("observation", Cell.num (mkRat 201 2)),
          ("location", Cell.str "0"), ("measure", Cell.str "0")],
         [("time_period", Cell.str "2011"), ("observation", Cell.missing),
          ("location", Cell.str "0"), ("measure", Cell.str "0")]]
        [{ id := "LOCATION", values := [⟨"AUS", "Australia"⟩] },
         { id := "MEASURE", values := [⟨"GDP", "GDP"⟩] }]
        [{ id := "TIME", role := "TIME_PERIOD",
           values := [⟨"2010", "2010"⟩, ⟨"2011", "2011"⟩] }] =
      Except.ok
        [[("time_period", Cell.str "2010"), ("observation", Cell.num (mkRat 201 2)),
          ("location", Cell.str "0"), ("measure", Cell.str "0"),
          ("location_code", Cell.str "AUS"), ("location_name", Cell.str "Australia"),
          ("measure_code", Cell.str "GDP"), ("measure_name", Cell.str "GDP"),
          ("year", Cell.missing)],
         [("time_period", Cell.str "2011"), ("observation", Cell.missing),
          ("location", Cell.str "0"), ("measure", Cell.str "0"),
          ("location_code", Cell.str "AUS"), ("location_name", Cell.str "Australia"),
          ("measure_code", Cell.str "GDP"), ("measure_name", Cell.str "GDP"),
          ("year", Cell.missing)]] ∧
    rowLookup "location_name"
        [("time_period", Cell.str "2010"), ("observation", Cell.num (mkRat 201 2)),
         ("location", Cell.str "0"), ("measure", Cell.str "0"),
         ("location_code", Cell.str "AUS"), ("location_name", Cell.str "Australia"),
         ("measure_code", Cell.str "GDP"), ("measure_name", Cell.str "GDP"),
         ("year", Cell.missing)] = some (Cell.str "Australia") := by
  refine ⟨by decide, by decide, by decide⟩

/-! ## Claim C1: arity mismatch is silently zipped, not an error -/

/-- Claim C1 counterexample: two series-level specs (`location, measure`)
against the 3-token key `"0:1:2"`.  Decoding does not fail with any
arity error: `zip` silently truncates, dropping the token `"2"`, and the
expander goes on to produce a row from the truncated decode - so a key
with mismatched token count yields rows rather than a failure. -/
theorem c1_counterexample :
    OecdImport.decodeSeriesKey ["location", "measure"] "0:1:2" =
      [("location", "0"), ("measure", "1")] ∧
    OecdImport.fetch_oecd_data ["location", "measure"]
        [("0:1:2", ⟨[("2010", [some 1])]⟩)] =
      Except.ok [[("time_period", Cell.str "2010"), ("observation", Cell.num 1),
        ("location", Cell.str "0"), ("measure", Cell.str "1")]] := by
  exact ⟨by decide, by decide⟩

/-! ## Claim C3: a zero-period series adds a phantom row -/

/-- Claim C3 counterexample: one series (`K = 1`) with zero time periods
(`T_1 = 0`, so `ΣT_i = 0`).  The outer merge of the empty observations
frame with the one-row decoded frame keeps the unmatched right row, so the
assembled table has 1 row instead of the claimed 0. -/
theorem c3_counterexample :
    OecdImport.fetch_oecd_data ["location"] [("0", ⟨[]⟩)] =
      Except.ok [[("time_period", Cell.missing), ("observation", Cell.missing),
        ("location", Cell.str "0")]] ∧
    (OecdImport.fetch_oecd_data ["location"] [("0", ⟨[]⟩)]).map List.length =
      Except.ok 1 := by
  exact ⟨by decide, by decide⟩

/-! ## Claim C4: decode/re-encode round trip -/

/-- Claim C4 counterexample: a DimensionSpec list of length 2 whose two ids
coincide (`a`, `a`) and the 2-token key `"x:y"`.  The decoded mapping is a
dict, so the second token overwrites the first and re-encoding the decoded
codes yields `"y"`, not the original key `"x:y"`. -/
theorem c4_counterexample :
    OecdImport.decodeSeriesKey ["a", "a"] "x:y" = [("a", "y")] ∧
    joinKey ((OecdImport.decodeSeriesKey ["a", "a"] "x:y").map Prod.snd) = "y" ∧
    ("y" : String) ≠ "x:y" := by
  exact ⟨by decide, by decide, by decide⟩

/-! ## Claim C2: a null series attribute becomes the string "None" -/

/-- Claim C2 counterexample: one series-level dimension (`location`), one
series-level attribute (`obs_status`), and a series whose attribute array
is `[null]`.  The expander renders the null through `str()`, so the
produced row's `obs_status` column holds the string `"None"` - not a
missing sentinel. -/
theorem c2_counterexample :
    StatsOecd.expandSeries ["location", "obs_status"]
        ["observation", "time_period"] "0"
        { attributes := [none], observations := [("2010", [some (mkRat 3 2)])] } =
      Except.ok [[("observation", Cell.num (mkRat 3 2)),
        ("time_period", Cell.str "2010"), ("location", Cell.str "0"),
        ("obs_status", Cell.str "None")]] ∧
    rowLookup "obs_status"
        [("observation", Cell.num (mkRat 3 2)), ("time_period", Cell.str "2010"),
         ("location", Cell.str "0"), ("obs_status", Cell.str "None")] =
      some (Cell.str "None") ∧
    Cell.str "None" ≠ Cell.missing := by
  exact ⟨by decide, by decide, by decide⟩

/-! ## Claim C5: empty code tables in the metadata merge -/

/-- Claim C5 counterexample: the oecd_import metadata merger on a
one-row table and a series dimension whose code table is empty.  The
column rename on the empty frame raises ValueError (there is no try/except
in oecd_import.py), so an empty code table IS an error on this cited merge
path instead of being skipped. -/
theorem c5_counterexample :
    OecdImport.append_metadata_to_oecd_stats [[("x", Cell.str "0")]]
        [{ id := "EMPTY_DIM", values := [] }]
        [{ id := "TIME", role := "TIME_PERIOD", values := [⟨"2010", "2010"⟩] }] =
      Except.error PdError.valueError := by
  decide

/-! ## Claim C7: duplicate ids are silently overwritten -/

/-- Claim C7 counterexample: the id `flag` occurs both in the series
metadata list (code table `Alpha`) and the observation attribute map (code
table `Beta`).  Both land under the same dict key, so the later entry
silently overwrites the earlier one: the merged row resolves
`flag_name = "Beta"` and the series-level `Alpha` table is lost - the merge
does silently overwrite one code table with the other. -/
theorem c7_counterexample :
    StatsOecd.append_metadata_to_oecd_stats
        [[("flag", Cell.str "0"), ("time_period", Cell.str "0")]]
        [{ id := "FLAG", values := [⟨"A", "Alpha"⟩] }]
        [{ id := "Flag", values := [⟨"B", "Beta"⟩] }]
        [{ id := "TIME", role := "TIME_PERIOD", values := [⟨"2010", "2010"⟩] }] =
      Except.ok [[("flag", Cell.str "0"), ("time_period", Cell.str "0"),
        ("flag_code", Cell.str "B"), ("flag_name", Cell.str "Beta"),
        ("year", Cell.str "2010")]] ∧
    rowLookup "flag_name"
        [("flag", Cell.str "0"), ("time_period", Cell.str "0"),
         ("flag_code", Cell.str "B"), ("flag_name", Cell.str "Beta"),
         ("year", Cell.str "2010")] = some (Cell.str "Beta") ∧
    Cell.str "Beta" ≠ Cell.str "Alpha" := by
  exact ⟨by decide, by decide, by decide⟩

/-! ## Zip and lookup lemmas for the decoder -/

theorem keysA_zip {α : Type} :
    ∀ (l1 : List String) (l2 : List α), keysA (List.zip l1 l2) = l1.take l2.length
  | [], l2 => by simp [keysA]
  | a :: l1, [] => by simp [keysA]
  | a :: l1, b :: l2 => by
    simp only [List.zip_cons_cons, keysA, List.map_cons, List.length_cons,
      List.take_succ_cons]
    exact congrArg _ (keysA_zip l1 l2)

/-- With pairwise-distinct column names the decoded dict is exactly the
zip: names paired with tokens up to the shorter length. -/
theorem decodeSeriesKey_eq_zip (colNames : List String) (key : String)
    (h : colNames.Nodup) :
    OecdImport.decodeSeriesKey colNames key =
      List.zip colNames (splitKey key) := by
  unfold OecdImport.decodeSeriesKey
  apply pyDict_nodup
  rw [keysA_zip]
  exact List.Nodup.sublist (List.take_sublist _ _) h

/-! ## Claim C1 (amended): the decoder zips and truncates, never fails -/

/-- Claim C1 amended: for any pairwise-distinct series column names and
any key, the decoder is total and silently pairs names with tokens up to
the shorter of the two lists (Python `zip` semantics): extra tokens are
dropped, extra dimension names get no column, and no arity error of any
kind exists on this path. -/
theorem c1_decoder_truncates (colNames : List String) (key : String)
    (h : colNames.Nodup) :
    OecdImport.decodeSeriesKey colNames key =
      List.zip colNames (splitKey key) ∧
    (OecdImport.decodeSeriesKey colNames key).length =
      min colNames.length (splitKey key).length := by
  refine ⟨decodeSeriesKey_eq_zip colNames key h, ?_⟩
  rw [decodeSeriesKey_eq_zip colNames key h, List.length_zip]

/-- Witness for the amended C1 theorem at a concrete mismatched input:
two distinct names, a one-token key. -/
theorem c1_decoder_truncates_witness :
    (["location", "measure"] : List String).Nodup ∧
    (OecdImport.decodeSeriesKey ["location", "measure"] "0" =
        List.zip ["location", "measure"] (splitKey "0") ∧
      (OecdImport.decodeSeriesKey ["location", "measure"] "0").length =
        min (["location", "measure"] : List String).length (splitKey "0").length) :=
  ⟨by decide, c1_decoder_truncates ["location", "measure"] "0" (by decide)⟩

/-! ## Claim C4 (amended): round trip with distinct ids -/

/-- Claim C4 amended: for every DimensionSpec list whose lowered ids are
pairwise distinct and every key with exactly as many colon-separated
tokens as there are specs, decoding the key and re-encoding the decoded
raw codes with ":" in positional order reproduces the original key. -/
theorem c4_roundtrip (dims : List DimSpec) (key : String)
    (hnd : (OecdImport.colNamesOf dims).Nodup)
    (hlen : (splitKey key).length = (OecdImport.colNamesOf dims).length) :
    joinKey ((OecdImport.decodeSeriesKey (OecdImport.colNamesOf dims) key).map
      Prod.snd) = key := by
  rw [decodeSeriesKey_eq_zip _ _ hnd]
  rw [List.map_snd_zip _ _ (le_of_eq hlen)]
  exact joinKey_splitKey key

/-- Witness for the amended C4 theorem: two distinct dimensions and the
two-token key `"0:1"` decode and re-encode to `"0:1"`. -/
theorem c4_roundtrip_witness :
    (OecdImport.colNamesOf
      [{ id := "LOCATION", values := [] }, { id := "MEASURE", values := [] }]).Nodup ∧
    (splitKey "0:1").length =
      (OecdImport.colNamesOf
        [{ id := "LOCATION", values := [] }, { id := "MEASURE", values := [] }]).length ∧
    joinKey ((OecdImport.decodeSeriesKey
        (OecdImport.colNamesOf
          [{ id := "LOCATION", values := [] }, { id := "MEASURE", values := [] }])
        "0:1").map Prod.snd) = "0:1" :=
  ⟨by decide, by decide, c4_roundtrip _ _ (by decide) (by decide)⟩

/-! ## Claim C8: missing structure keys abort the parse -/

/-- Claim C8 (confirmed): for every raw response whose structure block
lacks `dimensions.series` or lacks `dimensions.observation`, the structure
parser fails with a KeyError on one of those metadata keys (the spec's
MalformedStructure), and the whole stats_oecd pipeline run returns no
table. -/
theorem c8_malformed_structure (raw : StatsOecd.RawStructure)
    (ds : StatsOecd.RawDataset)
    (h : raw.dimensions_series = none ∨ raw.dimensions_observation = none) :
    (StatsOecd.parseStructure raw = Except.error (PdError.keyError "series") ∨
      StatsOecd.parseStructure raw =
        Except.error (PdError.keyError "observation")) ∧
    isOkE (StatsOecd.fetch_and_reshape_oecd_json raw ds) = false := by
  refine ⟨?_, statsReshape_never_ok raw ds⟩
  cases hobs : raw.dimensions_observation with
  | none =>
    right
    simp [StatsOecd.parseStructure, StatsOecd.getKey, hobs, errBind]
  | some obsDims =>
    cases hoatt : raw.attributes_observation with
    | none =>
      right
      simp [StatsOecd.parseStructure, StatsOecd.getKey, hobs, hoatt, okBind, errBind]
    | some obsAttrs =>
      cases hser : raw.dimensions_series with
      | none =>
        left
        simp [StatsOecd.parseStructure, StatsOecd.getKey, hobs, hoatt, hser,
          okBind, errBind]
      | some serDims =>
        rcases h with h | h
        · rw [hser] at h; cases h
        · rw [hobs] at h; cases h

/-- Witness for C8: a concrete structure block with `dimensions.series`
absent (and everything else present) over an empty dataset. -/
theorem c8_malformed_structure_witness :
    ((⟨none, some [], some [], some []⟩ :
        StatsOecd.RawStructure).dimensions_series = none ∨
      (⟨none, some [], some [], some []⟩ :
        StatsOecd.RawStructure).dimensions_observation = none) ∧
    ((StatsOecd.parseStructure ⟨none, some [], some [], some []⟩ =
        Except.error (PdError.keyError "series") ∨
      StatsOecd.parseStructure ⟨none, some [], some [], some []⟩ =
        Except.error (PdError.keyError "observation")) ∧
    isOkE (StatsOecd.fetch_and_reshape_oecd_json
      ⟨none, some [], some [], some []⟩ ⟨[], []⟩) = false) :=
  ⟨Or.inl rfl, c8_malformed_structure _ _ (Or.inl rfl)⟩

/-! ## Claim C9: the reshaping path never returns normally -/

/-- Claim C9 (confirmed): `fetch_and_reshape_oecd_json` never returns
normally on any input; moreover, on a concrete input where every prior
step succeeds, the run ends exactly with the NameError raised by the
`return` statement's reference to the unbound name
`oecd_json_structure_dimensions` (line 288). -/
theorem c9_reshape_never_returns (raw : StatsOecd.RawStructure)
    (ds : StatsOecd.RawDataset) :
    isOkE (StatsOecd.fetch_and_reshape_oecd_json raw ds) = false ∧
    StatsOecd.fetch_and_reshape_oecd_json
        ⟨some [{ id := "LOCATION", values := [] },
               { id := "MEASURE", values := [] },
               { id := "XD", values := [] }],
          some [{ id := "D1", values := [⟨"A", "A"⟩] },
                { id := "D2", values := [⟨"B", "B"⟩] },
                { id := "D3", values := [⟨"C", "C"⟩] },
                { id := "D4", values := [⟨"E", "E"⟩] }],
          some [], some []⟩
        ⟨[("0:10:6:9", [some 1]), ("0:11:10:10", [some 1]),
          ("0:1:9:40", [some 1])],
         [("0:0:1", ⟨[], [("0", [some 1])]⟩),
          ("0:17:6", ⟨[], [("0", [some 1])]⟩),
          ("0:1:10", ⟨[], [("0", [some 1])]⟩)]⟩ =
      Except.error (PdError.nameError "oecd_json_structure_dimensions") :=
  ⟨statsReshape_never_ok raw ds, by decide⟩

/-! ## Claim C7 (amended): duplicate ids collapse in the metadata dict -/

/-- Claim C7 amended: when the same lowered id occurs once in the series
metadata list and once in the observation attribute map, the merge behaves
exactly as if only the later (observation attribute map) entry existed:
the dict keyed by id keeps the later code table and silently discards the
earlier one.  Merge order itself is deterministic (dict insertion order),
but the duplicate id IS silently overwritten. -/
theorem c7_duplicate_id_overwritten (idd : List Row) (a b : DimSpec)
    (obsDims : List DimSpec) (hid : pyLower a.id = pyLower b.id) :
    StatsOecd.append_metadata_to_oecd_stats idd [a] [b] obsDims =
      StatsOecd.append_metadata_to_oecd_stats idd [b] [] obsDims := by
  have hdict : pyDict (List.map StatsOecd.statsMetaEntry ([a] ++ [b])) =
      pyDict (List.map StatsOecd.statsMetaEntry ([b] ++ [])) := by
    simp only [List.cons_append, List.nil_append, List.append_nil, List.map_cons,
      List.map_nil]
    simp [pyDict, pyDictInsert, StatsOecd.statsMetaEntry, hid]
  simp only [StatsOecd.append_metadata_to_oecd_stats]
  rw [hdict]

/-- Witness for the amended C7 theorem: ids `FLAG` and `Flag` both lower
to `flag`; merging with both present equals merging with only the later
code table. -/
theorem c7_duplicate_id_overwritten_witness :
    pyLower (DimSpec.id { id := "FLAG", values := [⟨"A", "Alpha"⟩] }) =
      pyLower (DimSpec.id { id := "Flag", values := [⟨"B", "Beta"⟩] }) ∧
    StatsOecd.append_metadata_to_oecd_stats [[("flag", Cell.str "0")]]
        [{ id := "FLAG", values := [⟨"A", "Alpha"⟩] }]
        [{ id := "Flag", values := [⟨"B", "Beta"⟩] }]
        [{ id := "TIME", role := "TIME_PERIOD", values := [⟨"2010", "2010"⟩] }] =
      StatsOecd.append_metadata_to_oecd_stats [[("flag", Cell.str "0")]]
        [{ id := "Flag", values := [⟨"B", "Beta"⟩] }] []
        [{ id := "TIME", role := "TIME_PERIOD", values := [⟨"2010", "2010"⟩] }] :=
  ⟨by decide, c7_duplicate_id_overwritten _ _ _ _ (by decide)⟩

/-! ## Claim C5 (amended): the stats merger skips empty code tables -/

theorem metaFrameRows_nil (k : String) : metaFrameRows k [] = [] := rfl

theorem keysA_map_sme (l : List DimSpec) :
    keysA (l.map StatsOecd.statsMetaEntry) = l.map (fun e => pyLower e.id) := by
  induction l with
  | nil => rfl
  | cons e rest ih =>
    simp only [List.map_cons, keysA] at ih ⊢
    rw [ih]
    rfl

theorem pyDictInsert_not_mem {α : Type} {d : List (String × α)} {k : String}
    {v : α} (h : k ∉ keysA d) : pyDictInsert d k v = d ++ [(k, v)] := by
  unfold pyDictInsert
  rw [if_neg]
  simp only [List.any_eq_true, decide_eq_true_eq, not_exists, not_and]
  intro q hq he
  exact h (he ▸ List.mem_map.2 ⟨q, hq, rfl⟩)

/-- Claim C5 amended: on the stats_oecd merge path an id with an empty
code table is skipped entirely: the merge output over a metadata list
containing it equals the output over the same list without it (same rows,
same row count, untouched raw columns, and no `<id>_name` column for that
id), provided the lowered ids are pairwise distinct and the time role is
none of them.  (On the oecd_import merge path an empty code table instead
raises ValueError.) -/
theorem c5_empty_code_table_skipped (idd : List Row)
    (pre post obsAttrMap obsDims : List DimSpec) (d : DimSpec)
    (hempty : d.values = [])
    (hnd : (((pre ++ d :: post) ++ obsAttrMap).map (fun e => pyLower e.id)).Nodup)
    (hrole : ∀ t ∈ obsDims, ∀ e ∈ (pre ++ d :: post) ++ obsAttrMap,
      pyLower t.role ≠ pyLower e.id) :
    StatsOecd.append_metadata_to_oecd_stats idd (pre ++ d :: post)
        obsAttrMap obsDims =
      StatsOecd.append_metadata_to_oecd_stats idd (pre ++ post)
        obsAttrMap obsDims := by
  have hndR : (((pre ++ post) ++ obsAttrMap).map (fun e => pyLower e.id)).Nodup := by
    refine List.Nodup.sublist (List.Sublist.map _ ?_) hnd
    exact List.Sublist.append_right
      (List.Sublist.append_left ((List.Sublist.refl post).cons d) pre) obsAttrMap
  have hL : pyDict (List.map StatsOecd.statsMetaEntry ((pre ++ d :: post) ++ obsAttrMap)) =
      List.map StatsOecd.statsMetaEntry ((pre ++ d :: post) ++ obsAttrMap) :=
    pyDict_nodup _ (by rw [keysA_map_sme]; exact hnd)
  have hR : pyDict (List.map StatsOecd.statsMetaEntry ((pre ++ post) ++ obsAttrMap)) =
      List.map StatsOecd.statsMetaEntry ((pre ++ post) ++ obsAttrMap) :=
    pyDict_nodup _ (by rw [keysA_map_sme]; exact hndR)
  simp only [StatsOecd.append_metadata_to_oecd_stats, hL, hR]
  cases obsDims with
  | nil => rfl
  | cons t rest =>
    simp only [headE, okBind]
    by_cases ht : t.values.isEmpty
    · simp [ht, errBind]
    · have hf : t.values.isEmpty = false := by simpa using ht
      simp only [hf, Bool.false_eq_true, if_false, okBind]
      have hfreshL : pyLower t.role ∉
          keysA (List.map StatsOecd.statsMetaEntry ((pre ++ d :: post) ++ obsAttrMap)) := by
        rw [keysA_map_sme]
        intro hmem
        obtain ⟨e, he, heq⟩ := List.mem_map.1 hmem
        exact hrole t (by simp) e he heq.symm
      have hfreshR : pyLower t.role ∉
          keysA (List.map StatsOecd.statsMetaEntry ((pre ++ post) ++ obsAttrMap)) := by
        rw [keysA_map_sme]
        intro hmem
        obtain ⟨e, he, heq⟩ := List.mem_map.1 hmem
        have : e ∈ (pre ++ d :: post) ++ obsAttrMap := by
          rcases List.mem_append.1 he with h1 | h2
          · rcases List.mem_append.1 h1 with h3 | h4
            · exact List.mem_append_left _ (List.mem_append_left _ h3)
            · exact List.mem_append_left _ (List.mem_append_right _ (by simp [h4]))
          · exact List.mem_append_right _ h2
        exact hrole t (by simp) e this heq.symm
      rw [pyDictInsert_not_mem hfreshL, pyDictInsert_not_mem hfreshR]
      have hsme : StatsOecd.statsMetaEntry d = (pyLower d.id, []) := by
        simp [StatsOecd.statsMetaEntry, hempty, metaFrameRows_nil]
      simp only [List.map_append, List.map_cons, hsme, List.append_assoc,
        List.cons_append, List.foldl_append, List.foldl_cons, List.isEmpty_nil,
        if_pos]

/-- Witness for the amended C5 theorem: an empty-valued dimension
`EMPTYD` between no predecessors and the `FLAG` dimension; merging with it
equals merging without it. -/
theorem c5_empty_code_table_skipped_witness :
    ((({ id := "EMPTYD", values := [] } : DimSpec).values = []) ∧
      ((([] ++ ({ id := "EMPTYD", values := [] } : DimSpec) ::
            [({ id := "FLAG", values := [⟨"A", "Alpha"⟩] } : DimSpec)]) ++
          ([] : List DimSpec)).map (fun (e : DimSpec) => pyLower e.id)).Nodup ∧
      (∀ t ∈ [({ id := "TIME", role := "TIME_PERIOD",
                 values := [⟨"2010", "2010"⟩] } : DimSpec)],
        ∀ e ∈ ([] ++ ({ id := "EMPTYD", values := [] } : DimSpec) ::
            [({ id := "FLAG", values := [⟨"A", "Alpha"⟩] } : DimSpec)]) ++
            ([] : List DimSpec),
          pyLower t.role ≠ pyLower e.id)) ∧
    StatsOecd.append_metadata_to_oecd_stats [[("flag", Cell.str "0")]]
        ([] ++ ({ id := "EMPTYD", values := [] } : DimSpec) ::
          [({ id := "FLAG", values := [⟨"A", "Alpha"⟩] } : DimSpec)]) []
        [{ id := "TIME", role := "TIME_PERIOD", values := [⟨"2010", "2010"⟩] }] =
      StatsOecd.append_metadata_to_oecd_stats [[("flag", Cell.str "0")]]
        ([] ++ [({ id := "FLAG", values := [⟨"A", "Alpha"⟩] } : DimSpec)]) []
        [{ id := "TIME", role := "TIME_PERIOD", values := [⟨"2010", "2010"⟩] }] :=
  ⟨⟨by decide, by decide, by decide⟩,
    c5_empty_code_table_skipped _ _ _ _ _ _ (by decide) (by decide) (by decide)⟩

/-! ## Claim C2 (amended): null attributes become the string "None" -/

theorem lookupA_append_not_mem {α : Type} (k : String) :
    ∀ (l1 l2 : List (String × α)), k ∉ keysA l1 →
      lookupA k (l1 ++ l2) = lookupA k l2
  | [], l2, _ => rfl
  | p :: rest, l2, h => by
    have h1 : p.1 ≠ k := fun he => h (by simp [keysA, he])
    have h2 : k ∉ keysA rest := fun he => h (by
      simp only [keysA, List.map_cons, List.mem_cons]
      right
      exact he)
    simp only [List.cons_append, lookupA, if_neg h1]
    exact lookupA_append_not_mem k rest l2 h2

theorem lookupA_zip_get {α : Type} (names : List String) (vals : List α)
    (j : ℕ) (hj : j < names.length) (hlen : names.length = vals.length)
    (hnd : names.Nodup) :
    lookupA (names.get ⟨j, hj⟩) (List.zip names vals) =
      some (vals.get ⟨j, hlen ▸ hj⟩) := by
  induction names generalizing vals j with
  | nil => exact absurd hj (by simp)
  | cons n ns ih =>
    cases vals with
    | nil => simp at hlen
    | cons v vs =>
      cases j with
      | zero => simp [lookupA]
      | succ j =>
        have hj2 : j < ns.length := by simpa using hj
        have hn : n ≠ ns.get ⟨j, hj2⟩ := by
          intro he
          exact (List.nodup_cons.mp hnd).1 (he ▸ List.get_mem ns j hj2)
        simp only [List.zip_cons_cons, List.get_cons_succ, lookupA, if_neg hn]
        exact ih vs j hj2 (by simpa using hlen) (List.nodup_cons.mp hnd).2

/-- Claim C2 amended: when a series-level attribute array holds null at
the position of attribute `a` (array `vs1 ++ none :: vs2` against specs
`as1 ++ a :: as2`, with `vs1` aligned to `as1`), the decoded series frame
built at src/stats_oecd.py lines 252-256 carries the string `"None"`
(Python `str(None)`) in column `a` - not a missing sentinel.  The merge
later attaches no label to it, since `"None"` matches no code-table
index. -/
theorem c2_null_attribute_is_str_none (serDims as1 as2 : List DimSpec)
    (a : DimSpec) (key : String) (vs1 vs2 : List (Option Int))
    (hnd : (StatsOecd.seriesDataColumnNames serDims (as1 ++ a :: as2)).Nodup)
    (hdim : (splitKey key).length = serDims.length)
    (hlen1 : vs1.length = as1.length) :
    lookupA (pyLower a.id)
      (pyDict (List.zip
        (StatsOecd.seriesDataColumnNames serDims (as1 ++ a :: as2))
        (splitKey key ++ (vs1 ++ none :: vs2).map pyStrAttr))) =
      some "None" := by
  have hdict : pyDict (List.zip
      (StatsOecd.seriesDataColumnNames serDims (as1 ++ a :: as2))
      (splitKey key ++ (vs1 ++ none :: vs2).map pyStrAttr)) =
      List.zip (StatsOecd.seriesDataColumnNames serDims (as1 ++ a :: as2))
        (splitKey key ++ (vs1 ++ none :: vs2).map pyStrAttr) := by
    apply pyDict_nodup
    rw [keysA_zip]
    exact List.Nodup.sublist (List.take_sublist _ _) hnd
  rw [hdict]
  unfold StatsOecd.seriesDataColumnNames at hnd ⊢
  rw [List.map_append, List.map_cons] at hnd ⊢
  obtain ⟨hnd1, hnd2, hdisj⟩ := List.nodup_append.mp hnd
  have hka : pyLower a.id ∉ serDims.map (fun d => pyLower d.id) := by
    intro hmem
    exact hdisj hmem (by simp)
  have hka1 : pyLower a.id ∉ as1.map (fun d => pyLower d.id) := by
    have := List.nodup_cons.mp (List.nodup_middle.mp hnd2)
    intro hmem
    exact this.1 (List.mem_append_left _ hmem)
  rw [List.map_append, List.map_cons]
  rw [List.zip_append (by simp [hdim])]
  rw [lookupA_append_not_mem _ _ _ (by
    rw [keysA_zip]
    intro hmem
    exact hka (List.take_subset _ _ hmem))]
  rw [List.zip_append (by simp [hlen1])]
  rw [lookupA_append_not_mem _ _ _ (by
    rw [keysA_zip]
    intro hmem
    exact hka1 (List.take_subset _ _ hmem))]
  simp [lookupA, pyStrAttr]

/-- Witness for the amended C2 theorem: one dimension, one attribute, the
attribute array `[null]`; the decoded frame holds `"None"` in the
attribute column. -/
theorem c2_null_attribute_is_str_none_witness :
    (StatsOecd.seriesDataColumnNames [{ id := "LOCATION", values := [] }]
        ([] ++ ({ id := "OBS_STATUS", values := [] } : DimSpec) :: [])).Nodup ∧
    (splitKey "0").length =
      ([({ id := "LOCATION", values := [] } : DimSpec)]).length ∧
    ([] : List (Option Int)).length = ([] : List DimSpec).length ∧
    lookupA (pyLower (DimSpec.id { id := "OBS_STATUS", values := [] }))
      (pyDict (List.zip
        (StatsOecd.seriesDataColumnNames [{ id := "LOCATION", values := [] }]
          ([] ++ ({ id := "OBS_STATUS", values := [] } : DimSpec) :: []))
        (splitKey "0" ++ (([] : List (Option Int)) ++ none :: []).map pyStrAttr))) =
      some "None" :=
  ⟨by decide, by decide, by decide,
    c2_null_attribute_is_str_none _ _ _ _ _ _ _ (by decide) (by decide) (by decide)⟩

/-! ## Expansion length lemmas for claims C3 and C10 -/

theorem extractObs_length :
    ∀ (l : List (String × List (Option ℚ))) (o : List (String × Option ℚ)),
      OecdImport.extractObs l = Except.ok o → o.length = l.length
  | [], o, h => by
    cases h
    rfl
  | (t, arr) :: rest, o, h => by
    unfold OecdImport.extractObs at h
    cases harr : headE arr with
    | error e =>
      rw [harr, errBind] at h
      cases h
    | ok v =>
      rw [harr, okBind] at h
      cases hrest : OecdImport.extractObs rest with
      | error e =>
        rw [hrest, errBind] at h
        cases h
      | ok more =>
        rw [hrest, okBind] at h
        cases h
        simp [extractObs_length rest more hrest]

theorem extractObs_ok_of_nonempty :
    ∀ (l : List (String × List (Option ℚ))), (∀ q ∈ l, q.2 ≠ []) →
      ∃ o, OecdImport.extractObs l = Except.ok o
  | [], _ => ⟨[], rfl⟩
  | (t, arr) :: rest, h => by
    obtain ⟨more, hmore⟩ :=
      extractObs_ok_of_nonempty rest (fun q hq => h q (by simp [hq]))
    cases arr with
    | nil => exact absurd rfl (h (t, []) (by simp))
    | cons v vs =>
      refine ⟨(t, v) :: more, ?_⟩
      unfold OecdImport.extractObs
      rw [show headE (v :: vs) = Except.ok v from rfl, okBind, hmore, okBind]

theorem rowLookup_dataRowOf (decoded : List (String × String)) (k : String) :
    rowLookup k (OecdImport.dataRowOf decoded) =
      (lookupA k decoded).map Cell.str := by
  induction decoded with
  | nil => rfl
  | cons p rest ih =>
    simp only [OecdImport.dataRowOf, List.map_cons] at ih ⊢
    by_cases h : p.1 = k
    · simp [rowLookup, lookupA, h]
    · simp only [rowLookup, lookupA, if_neg h]
      exact ih

theorem locOf_ok_lookup (decoded : List (String × String)) (v : String)
    (h : locOf decoded = Except.ok v) : lookupA "location" decoded = some v := by
  unfold locOf at h
  cases hl : lookupA "location" decoded with
  | none => rw [hl] at h; cases h
  | some w => rw [hl] at h; cases h; rfl

theorem keyMatches_obsRow (loc t : String) (c : Cell) :
    keyMatches "location" (some (Cell.str loc))
      [("time_period", Cell.str t), ("observation", c),
       ("location", Cell.str loc)] = true := by
  simp [keyMatches, rowLookup]

theorem mergeOuterOneRight_length_of_all (leftCols : List String)
    (key : String) (leftRows : List Row) (rightRow : Row)
    (hne : leftRows ≠ [])
    (hall : ∀ lr ∈ leftRows, keyMatches key (rowLookup key rightRow) lr = true) :
    (mergeOuterOneRight leftCols key leftRows rightRow).length =
      leftRows.length := by
  have hany : (leftRows.any fun lr =>
      keyMatches key (rowLookup key rightRow) lr) = true := by
    cases leftRows with
    | nil => exact absurd rfl hne
    | cons r rs => exact List.any_eq_true.2 ⟨r, by simp, hall r (by simp)⟩
  simp only [mergeOuterOneRight, hany, if_true, List.length_map]

theorem expandSeries_ok_length (colNames : List String) (key : String)
    (body : OecdImport.SeriesBody) (rows : List Row)
    (h : OecdImport.expandSeries colNames key body = Except.ok rows)
    (hne : body.observations ≠ []) :
    rows.length = body.observations.length := by
  unfold OecdImport.expandSeries at h
  cases hobs : OecdImport.extractObs body.observations with
  | error e =>
    rw [hobs, errBind] at h
    cases h
  | ok obs =>
    rw [hobs, okBind] at h
    cases hloc : locOf (OecdImport.decodeSeriesKey colNames key) with
    | error e =>
      rw [hloc, errBind] at h
      cases h
    | ok loc =>
      rw [hloc, okBind] at h
      cases h
      have hlen := extractObs_length _ _ hobs
      have hobs_ne : obs ≠ [] := by
        intro he
        rw [he] at hlen
        exact hne (List.length_eq_zero.mp hlen.symm)
      rw [mergeOuterOneRight_length_of_all]
      · simp [hlen]
      · simpa using hobs_ne
      · intro lr hlr
        obtain ⟨p, _, hp⟩ := List.mem_map.1 hlr
        rw [rowLookup_dataRowOf, locOf_ok_lookup _ _ hloc]
        rw [← hp]
        exact keyMatches_obsRow loc p.1 (cellOfOpt p.2)

/-! ## Claim C3 (amended): row-count conservation with nonempty series -/

/-- Claim C3 amended: for every series-keyed payload whose expansion
succeeds and in which every series has at least one time period, the
assembled table has exactly `T_1 + ... + T_K` rows, one per
(series, period) pair.  (A series with zero periods instead contributes
one all-missing phantom row, by the outer-merge semantics - see the
counterexample.) -/
theorem c3_row_count :
    ∀ (colNames : List String)
      (payload : List (String × OecdImport.SeriesBody)) (tbl : List Row),
      OecdImport.fetch_oecd_data colNames payload = Except.ok tbl →
      (∀ p ∈ payload, p.2.observations ≠ []) →
      tbl.length = (payload.map (fun p => p.2.observations.length)).sum
  | colNames, [], tbl, h, _ => by
    cases h
    rfl
  | colNames, (key, body) :: rest, tbl, h, hne => by
    unfold OecdImport.fetch_oecd_data at h
    cases hexp : OecdImport.expandSeries colNames key body with
    | error e =>
      rw [hexp, errBind] at h
      cases h
    | ok rows =>
      rw [hexp, okBind] at h
      cases hrest : OecdImport.fetch_oecd_data colNames rest with
      | error e =>
        rw [hrest, errBind] at h
        cases h
      | ok more =>
        rw [hrest, okBind] at h
        cases h
        have h1 := expandSeries_ok_length colNames key body rows hexp
          (hne (key, body) (by simp))
        have h2 := c3_row_count colNames rest more hrest
          (fun p hp => hne p (by simp [hp]))
        simp [List.length_append, h1, h2]

/-- Witness for the amended C3 theorem: one series with one period gives
a one-row table, matching `ΣT_i = 1`. -/
theorem c3_row_count_witness :
    OecdImport.fetch_oecd_data ["location"]
        [("0", ⟨[("2010", [some 1])]⟩)] =
      Except.ok [[("time_period", Cell.str "2010"),
        ("observation", Cell.num 1), ("location", Cell.str "0")]] ∧
    (∀ p ∈ [("0", (⟨[("2010", [some 1])]⟩ : OecdImport.SeriesBody))],
      p.2.observations ≠ []) ∧
    ([[("time_period", Cell.str "2010"), ("observation", Cell.num 1),
        ("location", Cell.str "0")]] : List Row).length =
      ([("0", (⟨[("2010", [some 1])]⟩ : OecdImport.SeriesBody))].map
        (fun p => p.2.observations.length)).sum :=
  ⟨by decide, by decide,
    c3_row_count ["location"] _ _ (by decide) (by decide)⟩

/-! ## Claim C10: the expander hard-codes the `location` dimension -/

/-- Claim C10 (confirmed): the series-keyed expander hard-codes `location`
as its merge column.  For every structure whose series dimension list
contains no dimension whose lowered id is `location`, expanding any
nonempty payload (whose observation arrays are nonempty, so that the run
reaches line 42) fails with KeyError on `location` instead of producing a
table.  This precondition appears nowhere in the spec. -/
theorem c10_location_hardcoded (dims : List DimSpec)
    (payload : List (String × OecdImport.SeriesBody))
    (hnoloc : ∀ d ∈ dims, pyLower d.id ≠ "location")
    (hne : payload ≠ [])
    (hobs : ∀ p ∈ payload, ∀ q ∈ p.2.observations, q.2 ≠ []) :
    OecdImport.fetch_oecd_data (OecdImport.colNamesOf dims) payload =
      Except.error (PdError.keyError "location") := by
  cases payload with
  | nil => exact absurd rfl hne
  | cons head rest =>
    obtain ⟨key, body⟩ := head
    have hexp : OecdImport.expandSeries (OecdImport.colNamesOf dims) key body =
        Except.error (PdError.keyError "location") := by
      unfold OecdImport.expandSeries
      obtain ⟨obs, hobs_ok⟩ := extractObs_ok_of_nonempty body.observations
        (fun q hq => hobs (key, body) (by simp) q hq)
      rw [hobs_ok, okBind]
      have hlook : lookupA "location"
          (OecdImport.decodeSeriesKey (OecdImport.colNamesOf dims) key) = none := by
        apply lookupA_pyDict_none
        rw [keysA_zip]
        intro hmem
        have hmem2 : "location" ∈ OecdImport.colNamesOf dims :=
          List.take_subset _ _ hmem
        obtain ⟨d, hd, hdeq⟩ := List.mem_map.1
          (by simpa [OecdImport.colNamesOf] using hmem2)
        exact hnoloc d hd hdeq
      have hloc : locOf (OecdImport.decodeSeriesKey
          (OecdImport.colNamesOf dims) key) =
          Except.error (PdError.keyError "location") := by
        unfold locOf
        rw [hlook]
      rw [hloc, errBind]
    unfold OecdImport.fetch_oecd_data
    rw [hexp, errBind]

/-- Witness for the C10 theorem: one dimension named `COUNTRY`, one
series - the expansion fails with KeyError on `location`. -/
theorem c10_location_hardcoded_witness :
    (∀ d ∈ [({ id := "COUNTRY", values := [] } : DimSpec)],
      pyLower d.id ≠ "location") ∧
    ([("0", (⟨[("2010", [some 1])]⟩ : OecdImport.SeriesBody))] ≠ []) ∧
    (∀ p ∈ [("0", (⟨[("2010", [some 1])]⟩ : OecdImport.SeriesBody))],
      ∀ q ∈ p.2.observations, q.2 ≠ []) ∧
    OecdImport.fetch_oecd_data
        (OecdImport.colNamesOf [({ id := "COUNTRY", values := [] } : DimSpec)])
        [("0", (⟨[("2010", [some 1])]⟩ : OecdImport.SeriesBody))] =
      Except.error (PdError.keyError "location") :=
  ⟨by decide, by decide, by decide,
    c10_location_hardcoded _ _ (by decide) (by decide) (by decide)⟩
